import Mathlib

/-!
Verification of the bootstrap-state reconciliation protocol of the
caravel/superset front-end entry points
(src/superset/assets/javascripts/explorev2/index.jsx: the "explore"
bootstrap and the "SQL Lab" bootstrap that shares the file).

The development shallowly embeds the JavaScript fragments that the claims
are about: JSON values are an inductive type, JavaScript objects are
association lists with first-match lookup and in-place update (matching
property-order semantics), `Object.assign` folds the source's own
enumerable properties into the target, and `JSON.parse` is an executable
fuel-indexed recursive-descent parser restricted to integer numeric
literals (the claims never involve non-integer numbers).  Host failures
(TypeError on a property read of null, SyntaxError from JSON.parse) are
an explicit error type.  The two bootstrap flows are straight-line
functions that also emit a trace of the observable effects (CSRF
initialisation, DOM lookup, the `now()` clock call, store creation,
mounting), so that ordering and exactly-once claims can be stated.
-/

namespace Caravel

/-- JavaScript/JSON values as decoded by `JSON.parse` and manipulated by the
bootstrap code.  `undef` is JavaScript's `undefined` (never produced by the
parser, but produced by reading an absent property). Numbers are modelled as
integers: no claim involves fractional values. -/
inductive JVal where
  | undef : JVal
  | null : JVal
  | bool (b : Bool) : JVal
  | num (n : Int) : JVal
  | str (s : String) : JVal
  | arr (elems : List JVal) : JVal
  | obj (fields : List (String × JVal)) : JVal

/-- A JavaScript object's own enumerable properties, as an ordered
association list (property creation order, no duplicate keys in any object
the host can build). -/
abbrev JObj := List (String × JVal)

/-- Association-list lookup: value of the first entry with the given key. -/
def aget {α β : Type} [DecidableEq α] : List (α × β) → α → Option β
  | [], _ => none
  | p :: rest, k => if p.1 = k then some p.2 else aget rest k

/-- Association-list update, as JavaScript property assignment: replace the
value at an existing key in place (keeping its position), else append the new
entry at the end. -/
def aset {α β : Type} [DecidableEq α] : List (α × β) → α → β → List (α × β)
  | [], k, v => [(k, v)]
  | p :: rest, k, v => if p.1 = k then (k, v) :: rest else p :: aset rest k v

/-- Keys of an association list, in order. -/
def akeys {α β : Type} (l : List (α × β)) : List α := l.map Prod.fst

theorem aget_aset_self {α β : Type} [DecidableEq α] (l : List (α × β)) (k : α) (v : β) :
    aget (aset l k v) k = some v := by
  induction l with
  | nil => simp [aset, aget]
  | cons p rest ih =>
    by_cases h : p.1 = k
    · simp [aset, aget, h]
    · simp [aset, aget, h, ih]

theorem aget_aset_ne {α β : Type} [DecidableEq α] (l : List (α × β)) (k k' : α) (v : β)
    (h : k' ≠ k) : aget (aset l k v) k' = aget l k' := by
  induction l with
  | nil => simp [aset, aget, Ne.symm h]
  | cons p rest ih =>
    by_cases hp : p.1 = k
    · subst hp
      simp [aset, aget, Ne.symm h]
    · simp [aset, aget, hp, ih]

/-- Semantics of `Object.assign(target, src)` restricted to one source whose
own enumerable properties are `src`: each source property is assigned onto the
target, left to right.  The function returns the updated contents of the
target object (object identity is handled separately by the heap model
below). -/
def objectAssign (target src : JObj) : JObj :=
  src.foldl (fun acc p => aset acc p.1 p.2) target

theorem objectAssign_nil (target : JObj) : objectAssign target [] = target := rfl

theorem objectAssign_cons (target : JObj) (p : String × JVal) (src : JObj) :
    objectAssign target (p :: src) = objectAssign (aset target p.1 p.2) src := rfl

/-- A key absent from the assign source is untouched by the assignment. -/
theorem aget_objectAssign_of_not_mem (target src : JObj) (k : String)
    (h : k ∉ akeys src) : aget (objectAssign target src) k = aget target k := by
  induction src generalizing target with
  | nil => rfl
  | cons p rest ih =>
    simp only [akeys, List.map_cons, List.mem_cons, not_or] at h
    rw [objectAssign_cons, ih _ h.2]
    exact aget_aset_ne target p.1 k p.2 h.1

/-- A key of the assign source (with duplicate-free keys, as any real
JavaScript object has) ends up with the source's value, whatever the target
held before. -/
theorem aget_objectAssign_of_mem (target src : JObj) (k : String)
    (hnd : (akeys src).Nodup) (h : k ∈ akeys src) :
    aget (objectAssign target src) k = aget src k := by
  induction src generalizing target with
  | nil => simp [akeys] at h
  | cons p rest ih =>
    simp only [akeys, List.map_cons, List.nodup_cons] at hnd
    simp only [akeys, List.map_cons, List.mem_cons] at h
    rcases h with h | h
    · subst h
      rw [objectAssign_cons,
        aget_objectAssign_of_not_mem _ _ _ hnd.1, aget_aset_self]
      simp [aget]
    · have hne : k ≠ p.1 := by
        intro hk; subst hk; exact hnd.1 h
      rw [objectAssign_cons, ih _ hnd.2 h]
      simp [aget, Ne.symm hne]

/-- Host failures that can abort a bootstrap flow.  `missingAnchor` is the
TypeError thrown by calling `getAttribute` on the `null` returned by
`document.getElementById` when no element matches; `malformedPayload` is the
SyntaxError thrown by `JSON.parse` on invalid input; `nullFieldAccess` is the
TypeError thrown by reading a property of `null` or `undefined`. -/
inductive JsError where
  | missingAnchor : JsError
  | malformedPayload : JsError
  | nullFieldAccess : JsError
deriving DecidableEq

/-- Own enumerable properties of a JavaScript value, as used both for the
target and for the sources of `Object.assign`: objects expose their fields,
strings and arrays expose their index properties, and every other value
(including `null` and `undefined`, which `Object.assign` skips as sources, and
the transient wrapper objects created for primitive targets) exposes none. -/
def JVal.ownProps : JVal → JObj
  | .obj o => o
  | .str s => s.data.enum.map (fun p => (toString p.1, JVal.str (String.mk [p.2])))
  | .arr xs => xs.enum.map (fun p => (toString p.1, p.2))
  | _ => []

/-- JavaScript property read `v.k`: throws a TypeError on `null`/`undefined`,
yields `undefined` for an absent property, and otherwise the property's value.
Built-in non-enumerable properties such as a string's `length` are not
modelled; no claim reads one. -/
def JVal.getField : JVal → String → Except JsError JVal
  | .null, _ => .error .nullFieldAccess
  | .undef, _ => .error .nullFieldAccess
  | v, k => .ok ((aget v.ownProps k).getD .undef)

/-- JavaScript `delete v.k`: removes an own property from an object and is a
no-op on primitives (the flows only apply it after a successful property read,
so the `null`/`undefined` case is unreachable there). -/
def JVal.deleteField : JVal → String → JVal
  | .obj o, k => .obj (o.filter (fun p => p.1 ≠ k))
  | v, _ => v

/-- Whitespace skipping for the JSON grammar. -/
def skipWs : List Char → List Char
  | [] => []
  | c :: cs =>
    if c = ' ' ∨ c = '\t' ∨ c = '\n' ∨ c = '\r' then skipWs cs else c :: cs

/-- Decode a JSON string body after its opening quote, translating the
common escapes. -/
def parseStringAux : List Char → Option (String × List Char)
  | [] => none
  | '\\' :: e :: cs =>
    let ec := if e = 'n' then '\n' else if e = 't' then '\t' else if e = 'r' then '\r' else e
    (parseStringAux cs).map (fun p => (String.mk (ec :: p.1.data), p.2))
  | c :: cs =>
    if c = '"' then some ("", cs)
    else (parseStringAux cs).map (fun p => (String.mk (c :: p.1.data), p.2))

/-- Decode a run of decimal digits, accumulating into a natural. -/
def parseDigitsAux : List Char → Nat → Nat × List Char
  | [], acc => (acc, [])
  | c :: cs, acc =>
    if c.isDigit then parseDigitsAux cs (acc * 10 + (c.toNat - 48)) else (acc, c :: cs)

/-- Decode the comma-separated elements of a JSON array after its opening
bracket, given a parser `pv` for a single value; `fuel` bounds the number of
elements. -/
def parseElemsAux (pv : List Char → Option (JVal × List Char)) :
    Nat → List Char → List JVal → Option (List JVal × List Char)
  | 0, _, _ => none
  | fuel + 1, cs, acc =>
    match pv cs with
    | none => none
    | some (v, rest) =>
      match skipWs rest with
      | ',' :: rest2 => parseElemsAux pv fuel rest2 (v :: acc)
      | ']' :: rest2 => some ((v :: acc).reverse, rest2)
      | _ => none

/-- Decode the members of a JSON object after its opening brace, given a
parser `pv` for a single value.  Duplicate keys keep the later value at the
first key's position, as `JSON.parse` does. -/
def parseMembersAux (pv : List Char → Option (JVal × List Char)) :
    Nat → List Char → JObj → Option (JObj × List Char)
  | 0, _, _ => none
  | fuel + 1, cs, acc =>
    match skipWs cs with
    | '"' :: rest =>
      match parseStringAux rest with
      | none => none
      | some (k, rest2) =>
        match skipWs rest2 with
        | ':' :: rest3 =>
          match pv rest3 with
          | none => none
          | some (v, rest4) =>
            match skipWs rest4 with
            | ',' :: rest5 => parseMembersAux pv fuel rest5 (aset acc k v)
            | '}' :: rest5 => some (aset acc k v, rest5)
            | _ => none
        | _ => none
    | _ => none

/-- Recursive-descent JSON value parser; `fuel` bounds the combined nesting
depth and element count and is instantiated large enough for the whole input
by `jsonParse`.  Numeric literals are restricted to (signed) integers. -/
def parseValue : Nat → List Char → Option (JVal × List Char)
  | 0, _ => none
  | fuel + 1, cs =>
    match skipWs cs with
    | [] => none
    | 'n' :: 'u' :: 'l' :: 'l' :: rest => some (.null, rest)
    | 't' :: 'r' :: 'u' :: 'e' :: rest => some (.bool true, rest)
    | 'f' :: 'a' :: 'l' :: 's' :: 'e' :: rest => some (.bool false, rest)
    | '"' :: rest => (parseStringAux rest).map (fun p => (.str p.1, p.2))
    | '[' :: rest =>
      (match skipWs rest with
       | ']' :: rest2 => some (.arr [], rest2)
       | cs2 => (parseElemsAux (parseValue fuel) fuel cs2 []).map (fun p => (.arr p.1, p.2)))
    | '{' :: rest =>
      (match skipWs rest with
       | '}' :: rest2 => some (.obj [], rest2)
       | cs2 => (parseMembersAux (parseValue fuel) fuel cs2 []).map (fun p => (.obj p.1, p.2)))
    | '-' :: rest =>
      (match rest with
       | c :: _ =>
         if c.isDigit then
           let p := parseDigitsAux rest 0
           some (.num (-(p.1 : Int)), p.2)
         else none
       | [] => none)
    | c :: rest =>
      if c.isDigit then
        let p := parseDigitsAux (c :: rest) 0
        some (.num (p.1 : Int), p.2)
      else none

/-- Model of the host `JSON.parse` on a string argument: parse one value,
allow trailing whitespace only, and signal a SyntaxError otherwise. -/
def jsonParse (s : String) : Except JsError JVal :=
  match parseValue (s.length + 2) s.data with
  | some (v, rest) => if skipWs rest = [] then .ok v else .error .malformedPayload
  | none => .error .malformedPayload

/-- Abstract-operation ToString applied by `JSON.parse` to a non-string
argument: `getAttribute` returns `null` for an absent attribute, and
`String(null)` is the four-character string of an en-u-el-el literal. -/
def jsToString : Option String → String
  | none => String.mk ['n', 'u', 'l', 'l']
  | some s => s

/-- Model of `JSON.parse(x)` where `x` is the (possibly null) result of
`getAttribute`: the argument is coerced to a string first, so a missing
attribute parses successfully to the JSON `null` value. -/
def jsonParseJS (a : Option String) : Except JsError JVal :=
  jsonParse (jsToString a)

theorem jsonParseJS_none : jsonParseJS none = .ok .null := by
  simp [jsonParseJS, jsToString, jsonParse, parseValue, skipWs, String.length]

/-- A DOM element: its id and its attribute list. -/
structure DomElement where
  id : String
  attrs : List (String × String)

/-- Model of `element.getAttribute(name)`: the attribute's string value, or
`null` (here `none`) when the attribute is absent. -/
def DomElement.getAttribute (e : DomElement) (name : String) : Option String :=
  aget e.attrs name

/-- A document, reduced to the elements addressable by id. -/
structure Dom where
  elements : List DomElement

/-- Model of `document.getElementById`: the first element with the id, or
`null` (here `none`). -/
def Dom.getElementById (d : Dom) (i : String) : Option DomElement :=
  d.elements.find? (fun e => e.id = i)

/-- Observable effects of a bootstrap flow, in execution order. -/
inductive Event where
  | csrfInit : Event
  | domLookup (anchorId : String) : Event
  | nowCall (t : Int) : Event
  | storeCreate : Event
  | mount : Event
deriving DecidableEq

/-- Modelled from the spec: a control template of the static control
registry (the registry itself lives outside the shown source, in
explorev2/stores/store.js) — a type tag and a static default value
(spec section 4.2). -/
structure ControlTemplate where
  controlType : String
  defaultValue : JVal

/-- Modelled from the spec: a control descriptor of ControlsState — the
template data, datasource metadata taken from the payload, and the control's
current value (spec sections 3 and 4.2). -/
structure ControlDescriptor where
  controlType : String
  datasourceMeta : JVal
  value : JVal

/-- Modelled from the spec: `getControlsState(bootstrapData, form_data)`
(imported from explorev2/stores/store.js, which is not part of the shown
source).  For every control of the static registry it produces a descriptor
seeded with the corresponding entry of the initial-value mapping if present,
else the template's static default; datasource metadata fields come from the
payload (spec section 4.2). -/
def getControlsState (registry : List (String × ControlTemplate)) (payload : JVal)
    (initialValues : JVal) : List (String × ControlDescriptor) :=
  registry.map (fun nt =>
    (nt.1,
     { controlType := nt.2.controlType
       datasourceMeta := (aget payload.ownProps "datasource").getD .undef
       value := (aget initialValues.ownProps nt.1).getD nt.2.defaultValue }))

/-- Modelled from the spec: `getFormDataFromControls(controls)` (imported
from explorev2/stores/store.js, not part of the shown source) — the pure
projection of each control to its current value (spec section 4.2). -/
def getFormDataFromControls (controls : List (String × ControlDescriptor)) : JObj :=
  controls.map (fun nd => (nd.1, nd.2.value))

/-- Encoding of a control descriptor as the JavaScript object it is. -/
def ControlDescriptor.toJVal (d : ControlDescriptor) : JVal :=
  .obj [("type", .str d.controlType), ("datasourceMeta", d.datasourceMeta),
        ("value", d.value)]

/-- Encoding of a ControlsState mapping as the JavaScript object it is. -/
def controlsToJVal (controls : List (String × ControlDescriptor)) : JVal :=
  .obj (controls.map (fun nd => (nd.1, nd.2.toJVal)))

/-- Anchor id of the explore bootstrap (index.jsx line 22). -/
def exploreAnchorId : String := "js-explore-view-container"

/-- Anchor id of the SQL Lab bootstrap (second entry point, line 79). -/
def sqlLabAnchorId : String := "app"

/-- Transcription of the second argument of the explore flow's
`Object.assign` (index.jsx lines 31 to 44), in source order: the fixed
default fields interleaved with the computed fields (`chartUpdateStartTime`
from `now()`, `controls`, `latestQueryFormData`). -/
def exploreAssignSource (t : Int) (controls : List (String × ControlDescriptor)) : JObj :=
  [ ("chartStatus", .null),
    ("chartUpdateEndTime", .null),
    ("chartUpdateStartTime", .num t),
    ("dashboards", .arr []),
    ("controls", controlsToJVal controls),
    ("latestQueryFormData", .obj (getFormDataFromControls controls)),
    ("filterColumnOpts", .arr []),
    ("isDatasourceMetaLoading", .bool false),
    ("isStarred", .bool false),
    ("queryResponse", .null),
    ("triggerQuery", .bool true),
    ("triggerRender", .bool false) ]

/-- The keys the explore merge's assign source always carries, in order:
the reserved keys of the explore InitialState. -/
def exploreReservedKeys : List String :=
  [ "chartStatus", "chartUpdateEndTime", "chartUpdateStartTime", "dashboards",
    "controls", "latestQueryFormData", "filterColumnOpts",
    "isDatasourceMetaLoading", "isStarred", "queryResponse", "triggerQuery",
    "triggerRender" ]

theorem akeys_exploreAssignSource (t : Int) (controls : List (String × ControlDescriptor)) :
    akeys (exploreAssignSource t controls) = exploreReservedKeys := rfl

/-- Contents of `bootstrappedState` (index.jsx lines 30 to 45):
`Object.assign(bootstrapData, {...})` applied to the payload after the
`form_data` deletion of line 25. -/
def bootstrappedState (bootstrapData : JVal) (t : Int)
    (controls : List (String × ControlDescriptor)) : JObj :=
  objectAssign bootstrapData.ownProps (exploreAssignSource t controls)

/-- Contents of the SQL Lab `state` (line 81):
`Object.assign({}, getInitialState(bootstrapData.defaultDbId), bootstrapData)`
with `defaults` standing for the record returned by the external
`getInitialState`. -/
def sqlLabState (defaults : JObj) (bootstrapData : JVal) : JObj :=
  objectAssign (objectAssign [] defaults) bootstrapData.ownProps

/-- A constructed store: the reducer it was seeded with and the initial
state handed to `createStore` (the store library itself is external). -/
structure Store where
  reducerName : String
  initialState : JObj

/-- Explore flow from the decoded payload onward (index.jsx lines 24 to 59):
read `bootstrapData.form_data` (throws on a null payload), derive the
controls, delete `form_data`, call `now()` once while evaluating the assign
source, merge, create the store and mount.  Returns the emitted events of
this portion together with the result. -/
def exploreFromPayload (times : Nat → Int)
    (registry : List (String × ControlTemplate)) (bootstrapData : JVal) :
    List Event × Except JsError Store :=
  match bootstrapData.getField "form_data" with
  | .error e => ([], .error e)
  | .ok formDataField =>
    let controls := getControlsState registry bootstrapData formDataField
    let bootstrapData2 := bootstrapData.deleteField "form_data"
    let t := times 0
    ([.nowCall t, .storeCreate, .mount],
     .ok { reducerName := "exploreReducer"
           initialState := bootstrappedState bootstrapData2 t controls })

/-- The whole explore bootstrap (index.jsx lines 20 to 59): CSRF
initialisation, anchor lookup (a missing anchor makes the `getAttribute`
call on `null` throw), `JSON.parse` of the `data-bootstrap` attribute (an
absent attribute is coerced to the string form of null), then the
payload-to-mount portion.  `times` is the stream of clock readings behind
`now()`. -/
def exploreBootstrap (times : Nat → Int)
    (registry : List (String × ControlTemplate)) (d : Dom) :
    List Event × Except JsError Store :=
  let ev1 : List Event := [.csrfInit, .domLookup exploreAnchorId]
  match d.getElementById exploreAnchorId with
  | none => (ev1, .error .missingAnchor)
  | some el =>
    match jsonParseJS (el.getAttribute "data-bootstrap") with
    | .error e => (ev1, .error e)
    | .ok bootstrapData =>
      let r := exploreFromPayload times registry bootstrapData
      (ev1 ++ r.1, r.2)

/-- The whole SQL Lab bootstrap (second entry point, lines 77 to 94): CSRF
initialisation, anchor lookup, `JSON.parse` of the attribute, read of
`bootstrapData.defaultDbId` (throws on a null payload), merge onto a fresh
record, store creation and mount.  `getInitialState` is the external default
record constructor imported from the SQL Lab reducers. -/
def sqlLabBootstrap (getInitialState : JVal → JObj) (d : Dom) :
    List Event × Except JsError Store :=
  let ev1 : List Event := [.csrfInit, .domLookup sqlLabAnchorId]
  match d.getElementById sqlLabAnchorId with
  | none => (ev1, .error .missingAnchor)
  | some el =>
    match jsonParseJS (el.getAttribute "data-bootstrap") with
    | .error e => (ev1, .error e)
    | .ok bootstrapData =>
      match bootstrapData.getField "defaultDbId" with
      | .error e => (ev1, .error e)
      | .ok dbId =>
        (ev1 ++ [.storeCreate, .mount],
         .ok { reducerName := "sqlLabReducer"
               initialState := sqlLabState (getInitialState dbId) bootstrapData })

/-- A reference to a heap-allocated object, for the aliasing model of the
two merges. -/
abbrev Ref := Nat

/-- A tiny object heap: the next fresh reference and the allocated records.
Only what the aliasing behaviour of the two merge statements needs. -/
structure Heap where
  next : Ref
  records : List (Ref × JObj)

/-- Contents of the record a reference designates. -/
def Heap.get (h : Heap) (r : Ref) : JObj :=
  (aget h.records r).getD []

/-- Overwrite the record a reference designates. -/
def Heap.set (h : Heap) (r : Ref) (o : JObj) : Heap :=
  ⟨h.next, aset h.records r o⟩

/-- Allocate a fresh record, returning its reference. -/
def Heap.alloc (h : Heap) (o : JObj) : Ref × Heap :=
  (h.next, ⟨h.next + 1, aset h.records h.next o⟩)

theorem Heap.get_set_self (h : Heap) (r : Ref) (o : JObj) :
    (h.set r o).get r = o := by
  simp [Heap.get, Heap.set, aget_aset_self]

theorem Heap.get_set_ne (h : Heap) (r r' : Ref) (o : JObj) (hne : r' ≠ r) :
    (h.set r o).get r' = h.get r' := by
  simp [Heap.get, Heap.set, aget_aset_ne _ _ _ _ hne]

/-- Heap-level `Object.assign(target, src)` with an object target: the
source's own properties are written into the target record, in place, and the
result is the target reference itself. -/
def objectAssignRef (h : Heap) (target : Ref) (src : JObj) : Ref × Heap :=
  (target, h.set target (objectAssign (h.get target) src))

/-- Heap-level explore merge (index.jsx line 30):
`Object.assign(bootstrapData, {...})` with the decoded payload's record as
the target. -/
def exploreMergeRef (h : Heap) (payloadRef : Ref) (src : JObj) : Ref × Heap :=
  objectAssignRef h payloadRef src

/-- Heap-level SQL Lab merge (line 81):
`Object.assign({}, getInitialState(...), bootstrapData)` — a fresh empty
record is allocated as the target, the defaults are assigned onto it, then
the payload record's current properties are read (not written). -/
def sqlLabMergeRef (h : Heap) (defaults : JObj) (payloadRef : Ref) : Ref × Heap :=
  let a := h.alloc []
  let b := objectAssignRef a.2 a.1 defaults
  objectAssignRef b.2 b.1 (b.2.get payloadRef)

theorem aget_eq_none_of_not_mem {α β : Type} [DecidableEq α] (l : List (α × β)) (k : α)
    (h : k ∉ akeys l) : aget l k = none := by
  induction l with
  | nil => rfl
  | cons p rest ih =>
    simp only [akeys, List.map_cons, List.mem_cons, not_or] at h
    simp [aget, Ne.symm h.1, ih h.2]

theorem aget_filter_ne_self (l : JObj) (k : String) :
    aget (l.filter (fun p => p.1 ≠ k)) k = none := by
  induction l with
  | nil => rfl
  | cons p rest ih =>
    by_cases hp : p.1 = k
    · simpa [List.filter_cons, hp] using ih
    · simpa [List.filter_cons, hp, aget] using ih

/-- On a target with no entries, assigning a duplicate-free source reproduces
the source's lookups. -/
theorem aget_objectAssign_nil_left (defaults : JObj) (k : String)
    (hnd : (akeys defaults).Nodup) :
    aget (objectAssign [] defaults) k = aget defaults k := by
  by_cases hk : k ∈ akeys defaults
  · exact aget_objectAssign_of_mem _ _ _ hnd hk
  · rw [aget_objectAssign_of_not_mem _ _ _ hk,
      aget_eq_none_of_not_mem _ _ hk]
    rfl

/-- C1: the claim reads, for both flows, "static defaults < payload fields <
computed fields; for every key present in both the defaults record and the
decoded payload, the merged InitialState's value at that key is the payload's
value".  This is false for the explore flow: its single `Object.assign` source
carries the static default fields, so they override the payload.  At the
concrete payload carrying `dashboards: [1]`, a key the defaults record also
carries (with default `[]`), the merged value is the default `[]`, not the
payload's `[1]`. -/
theorem C1_explore_defaults_override_payload_counterexample :
    (exploreFromPayload (fun _ => 0) []
        (JVal.obj [("dashboards", JVal.arr [JVal.num 1])])).2.map
        (fun st => aget st.initialState "dashboards")
      = .ok (some (JVal.arr []))
    ∧ (exploreFromPayload (fun _ => 0) []
        (JVal.obj [("dashboards", JVal.arr [JVal.num 1])])).2.map
        (fun st => aget st.initialState "dashboards")
      ≠ .ok (some (JVal.arr [JVal.num 1])) := by
  constructor
  · rfl
  · intro hcontra
    rw [show (exploreFromPayload (fun _ => 0) []
        (JVal.obj [("dashboards", JVal.arr [JVal.num 1])])).2.map
        (fun st => aget st.initialState "dashboards")
      = Except.ok (some (JVal.arr [])) from rfl] at hcontra
    simp at hcontra

theorem aget_bootstrappedState_reserved (v2 : JVal) (t : Int)
    (cs : List (String × ControlDescriptor)) (k : String)
    (hk : k ∈ exploreReservedKeys) :
    aget (bootstrappedState v2 t cs) k = aget (exploreAssignSource t cs) k := by
  rw [bootstrappedState]
  exact aget_objectAssign_of_mem _ _ _
    (by rw [akeys_exploreAssignSource]; decide)
    (by rw [akeys_exploreAssignSource]; exact hk)

theorem aget_bootstrappedState_not_reserved (v2 : JVal) (t : Int)
    (cs : List (String × ControlDescriptor)) (k : String)
    (hk : k ∉ exploreReservedKeys) :
    aget (bootstrappedState v2 t cs) k = aget v2.ownProps k := by
  rw [bootstrappedState]
  exact aget_objectAssign_of_not_mem _ _ _
    (by rw [akeys_exploreAssignSource]; exact hk)

theorem aget_sqlLabState_payload_key (defaults o : JObj) (k : String)
    (hnd : (akeys o).Nodup) (hk : k ∈ akeys o) :
    aget (sqlLabState defaults (.obj o)) k = aget o k :=
  aget_objectAssign_of_mem _ _ _ hnd hk

theorem aget_sqlLabState_default_key (defaults o : JObj) (k : String)
    (hnd : (akeys defaults).Nodup) (hk : k ∉ akeys o) :
    aget (sqlLabState defaults (.obj o)) k = aget defaults k := by
  rw [sqlLabState, show (JVal.obj o).ownProps = o from rfl,
    aget_objectAssign_of_not_mem _ _ _ hk,
    aget_objectAssign_nil_left _ _ hnd]

/-- C1 (amended): in the explore flow the static default fields and the
computed fields form the single `Object.assign` source, which overrides the
payload on every key collision — at every reserved key the merged value is
the source's (default or computed) value, and only at non-reserved keys does
the payload's value survive; in the SQL Lab flow the precedence is static
defaults below payload fields — for every key of the decoded payload the
merged value is the payload's value, and keys absent from the payload keep
the defaults record's value. -/
theorem C1_merge_precedence_amended :
    (∀ (v2 : JVal) (t : Int) (cs : List (String × ControlDescriptor)) (k : String),
        k ∈ exploreReservedKeys →
        aget (bootstrappedState v2 t cs) k = aget (exploreAssignSource t cs) k)
    ∧ (∀ (v2 : JVal) (t : Int) (cs : List (String × ControlDescriptor)) (k : String),
        k ∉ exploreReservedKeys →
        aget (bootstrappedState v2 t cs) k = aget v2.ownProps k)
    ∧ (∀ (defaults o : JObj) (k : String),
        (akeys o).Nodup → k ∈ akeys o →
        aget (sqlLabState defaults (.obj o)) k = aget o k)
    ∧ (∀ (defaults o : JObj) (k : String),
        (akeys defaults).Nodup → k ∉ akeys o →
        aget (sqlLabState defaults (.obj o)) k = aget defaults k) :=
  ⟨fun v2 t cs k hk => aget_bootstrappedState_reserved v2 t cs k hk,
   fun v2 t cs k hk => aget_bootstrappedState_not_reserved v2 t cs k hk,
   fun defaults o k hnd hk => aget_sqlLabState_payload_key defaults o k hnd hk,
   fun defaults o k hnd hk => aget_sqlLabState_default_key defaults o k hnd hk⟩

/-- Reduction of the payload-to-mount portion of the explore flow on an
object payload: the property read succeeds, so the flow derives the controls
from the pre-deletion payload, deletes `form_data`, reads the clock once and
merges. -/
theorem exploreFromPayload_obj (times : Nat → Int)
    (registry : List (String × ControlTemplate)) (o : JObj) :
    exploreFromPayload times registry (.obj o)
      = ([.nowCall (times 0), .storeCreate, .mount],
         .ok { reducerName := "exploreReducer"
               initialState := bootstrappedState
                 ((JVal.obj o).deleteField "form_data") (times 0)
                 (getControlsState registry (.obj o)
                   ((aget o "form_data").getD .undef)) }) := rfl

/-- A document holding exactly the explore anchor element, carrying the given
serialized payload in its `data-bootstrap` attribute. -/
def mkExploreDom (s : String) : Dom :=
  ⟨[⟨exploreAnchorId, [("data-bootstrap", s)]⟩]⟩

theorem exploreBootstrap_parse_error (times : Nat → Int)
    (registry : List (String × ControlTemplate)) (d : Dom) (el : DomElement)
    (e : JsError) (hel : d.getElementById exploreAnchorId = some el)
    (hp : jsonParseJS (el.getAttribute "data-bootstrap") = .error e) :
    exploreBootstrap times registry d
      = ([Event.csrfInit, Event.domLookup exploreAnchorId], .error e) := by
  unfold exploreBootstrap
  simp only [hel, hp]

theorem exploreBootstrap_parse_ok (times : Nat → Int)
    (registry : List (String × ControlTemplate)) (d : Dom) (el : DomElement)
    (v : JVal) (hel : d.getElementById exploreAnchorId = some el)
    (hp : jsonParseJS (el.getAttribute "data-bootstrap") = .ok v) :
    exploreBootstrap times registry d
      = ([Event.csrfInit, Event.domLookup exploreAnchorId]
           ++ (exploreFromPayload times registry v).1,
         (exploreFromPayload times registry v).2) := by
  unfold exploreBootstrap
  simp only [hel, hp]

theorem C1_merge_precedence_amended_witness :
    aget (bootstrappedState (JVal.obj []) 0 []) "dashboards"
        = aget (exploreAssignSource 0 []) "dashboards"
    ∧ aget (bootstrappedState (JVal.obj [("x", JVal.null)]) 0 []) "x"
        = aget (JVal.obj [("x", JVal.null)]).ownProps "x"
    ∧ aget (sqlLabState [("a", JVal.null)] (.obj [("a", JVal.num 2)])) "a"
        = aget [("a", JVal.num 2)] "a"
    ∧ aget (sqlLabState [("a", JVal.null)] (.obj [("b", JVal.num 2)])) "a"
        = aget [("a", JVal.null)] "a" :=
  ⟨C1_merge_precedence_amended.1 _ 0 [] _ (by decide),
   C1_merge_precedence_amended.2.1 _ 0 [] _ (by decide),
   C1_merge_precedence_amended.2.2.1 _ _ _ (by decide) (by decide),
   C1_merge_precedence_amended.2.2.2 _ _ _ (by decide) (by decide)⟩

/-- C2: for any decoded payload carrying a reserved key (`controls`,
`latestQueryFormData`, or one of the fixed status/flag fields of the explore
merge source), the merged InitialState's value at that key is the computed or
default value of the assign source — never the payload's — and the flow
still succeeds (the shadowing raises no error). -/
theorem C2_reserved_keys_shadowed (times : Nat → Int)
    (registry : List (String × ControlTemplate)) (o : JObj) (k : String)
    (hk : k ∈ exploreReservedKeys) :
    (exploreFromPayload times registry (.obj o)).2.map
        (fun st => aget st.initialState k)
      = .ok (aget (exploreAssignSource (times 0)
          (getControlsState registry (.obj o)
            ((aget o "form_data").getD .undef))) k) := by
  simp only [exploreFromPayload_obj, Except.map]
  exact congrArg Except.ok (aget_bootstrappedState_reserved _ _ _ _ hk)

theorem C2_reserved_keys_shadowed_witness :
    (exploreFromPayload (fun _ => 7) [] (.obj [("controls", JVal.num 5)])).2.map
        (fun st => aget st.initialState "controls")
      = .ok (aget (exploreAssignSource 7
          (getControlsState [] (.obj [("controls", JVal.num 5)])
            ((aget [("controls", JVal.num 5)] "form_data").getD .undef)))
          "controls") :=
  C2_reserved_keys_shadowed (fun _ => 7) [] _ _ (by decide)

/-- C3: for every decoded object payload of the explore flow, the merged
InitialState has no top-level `form_data` key (it was deleted after the
derived-state computation and before the merge), and carries the derived form
data only under the reserved key `latestQueryFormData`. -/
theorem C3_form_data_removed (times : Nat → Int)
    (registry : List (String × ControlTemplate)) (o : JObj) :
    (exploreFromPayload times registry (.obj o)).2.map
        (fun st => aget st.initialState "form_data") = .ok none
    ∧ (exploreFromPayload times registry (.obj o)).2.map
        (fun st => aget st.initialState "latestQueryFormData")
      = .ok (some (.obj (getFormDataFromControls
          (getControlsState registry (.obj o)
            ((aget o "form_data").getD .undef))))) := by
  constructor
  · simp only [exploreFromPayload_obj, Except.map]
    refine congrArg Except.ok ?_
    refine (aget_bootstrappedState_not_reserved _ _ _ _ (by decide)).trans ?_
    exact aget_filter_ne_self o "form_data"
  · simp only [exploreFromPayload_obj, Except.map]
    refine congrArg Except.ok ?_
    exact (aget_bootstrappedState_reserved _ _ _ _ (by decide)).trans rfl

/-- C4: on a document with no element matching the explore anchor id, the
bootstrap fails with the missing-anchor error (the TypeError of calling
`getAttribute` on null), no store is created and nothing is mounted. -/
theorem C4_missing_anchor_aborts (times : Nat → Int)
    (registry : List (String × ControlTemplate)) (d : Dom)
    (h : d.getElementById exploreAnchorId = none) :
    (exploreBootstrap times registry d).2 = .error .missingAnchor
    ∧ Event.storeCreate ∉ (exploreBootstrap times registry d).1
    ∧ Event.mount ∉ (exploreBootstrap times registry d).1 := by
  have hb : exploreBootstrap times registry d
      = ([.csrfInit, .domLookup exploreAnchorId], .error .missingAnchor) := by
    unfold exploreBootstrap
    simp only [h]
  rw [hb]
  exact ⟨rfl, by decide, by decide⟩

theorem C4_missing_anchor_aborts_witness :
    (exploreBootstrap (fun _ => 0) [] ⟨[]⟩).2 = .error .missingAnchor
    ∧ Event.storeCreate ∉ (exploreBootstrap (fun _ => 0) [] ⟨[]⟩).1
    ∧ Event.mount ∉ (exploreBootstrap (fun _ => 0) [] ⟨[]⟩).1 :=
  C4_missing_anchor_aborts (fun _ => 0) [] ⟨[]⟩ rfl

/-- Recogniser for clock events in a trace. -/
def isNowCall : Event → Bool
  | .nowCall _ => true
  | _ => false

/-- C5: on a successfully decoded object payload, the explore bootstrap
reads the clock exactly once over its whole run, and the merged InitialState
stores that single reading under `chartUpdateStartTime`. -/
theorem C5_now_called_once (times : Nat → Int)
    (registry : List (String × ControlTemplate)) (s : String) (o : JObj)
    (hp : jsonParse s = .ok (.obj o)) :
    ((exploreBootstrap times registry (mkExploreDom s)).1.countP isNowCall = 1)
    ∧ (exploreBootstrap times registry (mkExploreDom s)).2.map
        (fun st => aget st.initialState "chartUpdateStartTime")
      = .ok (some (.num (times 0))) := by
  have hel : (mkExploreDom s).getElementById exploreAnchorId
      = some ⟨exploreAnchorId, [("data-bootstrap", s)]⟩ := rfl
  have hpp : jsonParseJS
      ((DomElement.mk exploreAnchorId
        [("data-bootstrap", s)]).getAttribute "data-bootstrap") = .ok (.obj o) := hp
  simp only [exploreBootstrap_parse_ok times registry _ _ _ hel hpp,
    exploreFromPayload_obj, Except.map]
  constructor
  · rfl
  · refine congrArg Except.ok ?_
    exact (aget_bootstrappedState_reserved _ _ _ _ (by decide)).trans rfl

theorem C5_now_called_once_witness :
    ((exploreBootstrap (fun _ => 42) [] (mkExploreDom "{}")).1.countP isNowCall = 1)
    ∧ (exploreBootstrap (fun _ => 42) [] (mkExploreDom "{}")).2.map
        (fun st => aget st.initialState "chartUpdateStartTime")
      = .ok (some (.num 42)) :=
  C5_now_called_once (fun _ => 42) [] "{}" [] rfl

/-- C6 counterexample: the claim reads "if the anchor element's bootstrap
attribute is absent ... payload extraction fails with MalformedPayloadError".
On a document whose anchor element has no `data-bootstrap` attribute,
`getAttribute` returns null, `JSON.parse(null)` coerces its argument to the
string form of null and succeeds, and the flow fails only afterwards — with
the TypeError of reading `form_data` off the null payload, not with a parse
error. -/
theorem C6_absent_attribute_counterexample :
    (exploreBootstrap (fun _ => 0) [] ⟨[⟨exploreAnchorId, []⟩]⟩).2
      = .error .nullFieldAccess
    ∧ (exploreBootstrap (fun _ => 0) [] ⟨[⟨exploreAnchorId, []⟩]⟩).2
      ≠ .error .malformedPayload := by
  constructor
  · rfl
  · intro hcontra
    rw [show (exploreBootstrap (fun _ => 0) [] ⟨[⟨exploreAnchorId, []⟩]⟩).2
        = Except.error JsError.nullFieldAccess from rfl] at hcontra
    simp at hcontra

/-- C6 (amended): when the anchor element's attribute value is present but is
not valid JSON, the bootstrap fails with the malformed-payload (SyntaxError)
error; when the attribute is absent, decoding succeeds with a null payload
and the flow fails with the TypeError of reading the payload's form-data
field.  In both cases the failure is fatal — no store is created and nothing
is mounted. -/
theorem C6_extraction_failure_amended (times : Nat → Int)
    (registry : List (String × ControlTemplate)) (d : Dom) (el : DomElement)
    (hel : d.getElementById exploreAnchorId = some el) :
    (∀ s : String, el.getAttribute "data-bootstrap" = some s →
        jsonParse s = .error .malformedPayload →
        (exploreBootstrap times registry d).2 = .error .malformedPayload
        ∧ Event.storeCreate ∉ (exploreBootstrap times registry d).1
        ∧ Event.mount ∉ (exploreBootstrap times registry d).1)
    ∧ (el.getAttribute "data-bootstrap" = none →
        (exploreBootstrap times registry d).2 = .error .nullFieldAccess
        ∧ Event.storeCreate ∉ (exploreBootstrap times registry d).1
        ∧ Event.mount ∉ (exploreBootstrap times registry d).1) := by
  constructor
  · intro s hattr hjson
    have hjp : jsonParseJS (el.getAttribute "data-bootstrap")
        = .error .malformedPayload := by
      rw [hattr]; exact hjson
    rw [exploreBootstrap_parse_error times registry d el _ hel hjp]
    exact ⟨rfl, by decide, by decide⟩
  · intro hattr
    have hjp : jsonParseJS (el.getAttribute "data-bootstrap") = .ok .null := by
      rw [hattr]; exact jsonParseJS_none
    rw [exploreBootstrap_parse_ok times registry d el _ hel hjp]
    refine ⟨rfl, ?_, ?_⟩
    · show Event.storeCreate ∉
        [Event.csrfInit, Event.domLookup exploreAnchorId] ++ ([] : List Event)
      decide
    · show Event.mount ∉
        [Event.csrfInit, Event.domLookup exploreAnchorId] ++ ([] : List Event)
      decide

theorem C6_extraction_failure_amended_witness :
    ((exploreBootstrap (fun _ => 0) [] (mkExploreDom "not json")).2
        = .error .malformedPayload
      ∧ Event.storeCreate ∉ (exploreBootstrap (fun _ => 0) [] (mkExploreDom "not json")).1
      ∧ Event.mount ∉ (exploreBootstrap (fun _ => 0) [] (mkExploreDom "not json")).1)
    ∧ ((exploreBootstrap (fun _ => 0) [] ⟨[⟨exploreAnchorId, []⟩]⟩).2
        = .error .nullFieldAccess
      ∧ Event.storeCreate ∉ (exploreBootstrap (fun _ => 0) [] ⟨[⟨exploreAnchorId, []⟩]⟩).1
      ∧ Event.mount ∉ (exploreBootstrap (fun _ => 0) [] ⟨[⟨exploreAnchorId, []⟩]⟩).1) :=
  ⟨(C6_extraction_failure_amended (fun _ => 0) [] (mkExploreDom "not json")
      ⟨exploreAnchorId, [("data-bootstrap", "not json")]⟩ rfl).1 "not json" rfl rfl,
   (C6_extraction_failure_amended (fun _ => 0) [] ⟨[⟨exploreAnchorId, []⟩]⟩
      ⟨exploreAnchorId, []⟩ rfl).2 rfl⟩

theorem akeys_getFormDataFromControls (cs : List (String × ControlDescriptor)) :
    akeys (getFormDataFromControls cs) = akeys cs := by
  rw [getFormDataFromControls, akeys, akeys, List.map_map]
  exact rfl

/-- C7: the derived form-data mapping has exactly the key set of the
ControlsState it is projected from — one entry per control, each carrying
that control's current value. -/
theorem C7_formdata_matches_controls (registry : List (String × ControlTemplate))
    (payload initialValues : JVal) :
    akeys (getFormDataFromControls (getControlsState registry payload initialValues))
      = akeys (getControlsState registry payload initialValues)
    ∧ ∀ nd, nd ∈ getControlsState registry payload initialValues →
        (nd.1, nd.2.value) ∈
          getFormDataFromControls (getControlsState registry payload initialValues) :=
  ⟨akeys_getFormDataFromControls _,
   fun _ hnd => List.mem_map_of_mem _ hnd⟩

theorem C7_formdata_matches_controls_witness :
    akeys (getFormDataFromControls (getControlsState
        [("metric", ⟨"select", .str "sum"⟩)] (.obj [("datasource", .str "table1")])
        (.obj [("metric", .str "count")])))
      = akeys (getControlsState
        [("metric", ⟨"select", .str "sum"⟩)] (.obj [("datasource", .str "table1")])
        (.obj [("metric", .str "count")]))
    ∧ ("metric", JVal.str "count") ∈
        getFormDataFromControls (getControlsState
          [("metric", ⟨"select", .str "sum"⟩)] (.obj [("datasource", .str "table1")])
          (.obj [("metric", .str "count")])) :=
  ⟨(C7_formdata_matches_controls [("metric", ⟨"select", .str "sum"⟩)]
      (.obj [("datasource", .str "table1")]) (.obj [("metric", .str "count")])).1,
   (C7_formdata_matches_controls [("metric", ⟨"select", .str "sum"⟩)]
      (.obj [("datasource", .str "table1")]) (.obj [("metric", .str "count")])).2
      ("metric", ⟨"select", .str "table1", .str "count"⟩)
      (List.mem_singleton.mpr rfl)⟩

/-- C8: the composed derivation — form data projected from the controls
computed out of a payload and an initial-value mapping — depends only on the
initial-value mapping and the static control registry: two payloads that
disagree anywhere else produce identical derived form data. -/
theorem C8_derivation_independent_of_payload
    (registry : List (String × ControlTemplate)) (p1 p2 v : JVal) :
    getFormDataFromControls (getControlsState registry p1 v)
      = getFormDataFromControls (getControlsState registry p2 v) := by
  rw [getFormDataFromControls, getFormDataFromControls,
    getControlsState, getControlsState, List.map_map, List.map_map]
  exact rfl

theorem exploreBootstrap_trace_shape (times : Nat → Int)
    (registry : List (String × ControlTemplate)) (d : Dom) :
    (exploreBootstrap times registry d).1
      = [Event.csrfInit, Event.domLookup exploreAnchorId]
    ∨ (exploreBootstrap times registry d).1
      = [Event.csrfInit, Event.domLookup exploreAnchorId,
         Event.nowCall (times 0), Event.storeCreate, Event.mount] := by
  cases hel : d.getElementById exploreAnchorId with
  | none => exact Or.inl (by simp [exploreBootstrap, hel])
  | some el =>
    cases hjp : jsonParseJS (el.getAttribute "data-bootstrap") with
    | error e => exact Or.inl (by simp [exploreBootstrap, hel, hjp])
    | ok v =>
      cases hgf : v.getField "form_data" with
      | error e2 =>
        exact Or.inl (by simp [exploreBootstrap, exploreFromPayload, hel, hjp, hgf])
      | ok fd =>
        exact Or.inr (by simp [exploreBootstrap, exploreFromPayload, hel, hjp, hgf])

theorem sqlLabBootstrap_trace_shape (getInitialState : JVal → JObj) (d : Dom) :
    (sqlLabBootstrap getInitialState d).1
      = [Event.csrfInit, Event.domLookup sqlLabAnchorId]
    ∨ (sqlLabBootstrap getInitialState d).1
      = [Event.csrfInit, Event.domLookup sqlLabAnchorId,
         Event.storeCreate, Event.mount] := by
  cases hel : d.getElementById sqlLabAnchorId with
  | none => exact Or.inl (by simp [sqlLabBootstrap, hel])
  | some el =>
    cases hjp : jsonParseJS (el.getAttribute "data-bootstrap") with
    | error e => exact Or.inl (by simp [sqlLabBootstrap, hel, hjp])
    | ok v =>
      cases hgf : v.getField "defaultDbId" with
      | error e2 => exact Or.inl (by simp [sqlLabBootstrap, hel, hjp, hgf])
      | ok dbId => exact Or.inr (by simp [sqlLabBootstrap, hel, hjp, hgf])

/-- C9: in both bootstrap flows the CSRF/session initializer runs exactly
once, and its event strictly precedes the DOM anchor lookup in the emitted
trace, on every input. -/
theorem C9_csrf_init_once_before_anchor (times : Nat → Int)
    (registry : List (String × ControlTemplate)) (d : Dom)
    (getInitialState : JVal → JObj) (d2 : Dom) :
    ((exploreBootstrap times registry d).1.count Event.csrfInit = 1
      ∧ ∃ rest, (exploreBootstrap times registry d).1
          = Event.csrfInit :: Event.domLookup exploreAnchorId :: rest)
    ∧ ((sqlLabBootstrap getInitialState d2).1.count Event.csrfInit = 1
      ∧ ∃ rest, (sqlLabBootstrap getInitialState d2).1
          = Event.csrfInit :: Event.domLookup sqlLabAnchorId :: rest) := by
  constructor
  · rcases exploreBootstrap_trace_shape times registry d with h | h <;>
      rw [h] <;> exact ⟨rfl, _, rfl⟩
  · rcases sqlLabBootstrap_trace_shape getInitialState d2 with h | h <;>
      rw [h] <;> exact ⟨rfl, _, rfl⟩

/-- C10: in the explore flow the merge target is the decoded payload's own
record — the merge returns the payload's reference and mutates its record in
place to additionally contain every default and computed field of the assign
source; in the SQL Lab flow the merge target is a freshly allocated empty
record, and the decoded payload's record is left untouched. -/
theorem C10_explore_merge_aliases_payload (h : Heap) (payloadRef : Ref)
    (src defaults : JObj) (hlt : payloadRef < h.next) :
    (exploreMergeRef h payloadRef src).1 = payloadRef
    ∧ Heap.get (exploreMergeRef h payloadRef src).2 payloadRef
        = objectAssign (Heap.get h payloadRef) src
    ∧ (sqlLabMergeRef h defaults payloadRef).1 = h.next
    ∧ (sqlLabMergeRef h defaults payloadRef).1 ≠ payloadRef
    ∧ Heap.get (sqlLabMergeRef h defaults payloadRef).2 payloadRef
        = Heap.get h payloadRef := by
  have hne : payloadRef ≠ h.next := Nat.ne_of_lt hlt
  refine ⟨rfl, Heap.get_set_self h payloadRef _, rfl, ?_, ?_⟩
  · intro hc
    exact absurd (hc ▸ hlt) (Nat.lt_irrefl _)
  · show Heap.get (Heap.set (Heap.set ⟨h.next + 1, aset h.records h.next []⟩
        h.next _) h.next _) payloadRef = _
    rw [Heap.get_set_ne _ _ _ _ hne, Heap.get_set_ne _ _ _ _ hne]
    simp [Heap.get, aget_aset_ne _ _ _ _ hne]

theorem C10_explore_merge_aliases_payload_witness :
    (exploreMergeRef ⟨1, [(0, [("a", JVal.null)])]⟩ 0 [("b", JVal.num 1)]).1 = 0
    ∧ Heap.get (exploreMergeRef ⟨1, [(0, [("a", JVal.null)])]⟩ 0
          [("b", JVal.num 1)]).2 0
        = objectAssign (Heap.get ⟨1, [(0, [("a", JVal.null)])]⟩ 0) [("b", JVal.num 1)]
    ∧ (sqlLabMergeRef ⟨1, [(0, [("a", JVal.null)])]⟩ [("c", JVal.null)] 0).1
        = (⟨1, [(0, [("a", JVal.null)])]⟩ : Heap).next
    ∧ (sqlLabMergeRef ⟨1, [(0, [("a", JVal.null)])]⟩ [("c", JVal.null)] 0).1 ≠ 0
    ∧ Heap.get (sqlLabMergeRef ⟨1, [(0, [("a", JVal.null)])]⟩
          [("c", JVal.null)] 0).2 0
        = Heap.get ⟨1, [(0, [("a", JVal.null)])]⟩ 0 :=
  C10_explore_merge_aliases_payload ⟨1, [(0, [("a", JVal.null)])]⟩ 0
    [("b", JVal.num 1)] [("c", JVal.null)] (by decide)

end Caravel
